import Mathlib

/-!
Verification of the resume-to-job matching engine
(`src/ResumeParser/src/utils/resumeParser.ts`, class `ResumeParser`).

Modelling conventions:
* A JavaScript string is modelled as a list of natural numbers (its UTF-16
  code units), `Str := List Nat`.  JavaScript numbers are modelled as exact
  rationals; the IEEE value `NaN` (produced by the `0 / 0` division when
  `requiredSkills` is empty) is modelled by a dedicated constructor of
  `ScoreOutcome`.
* The third-party `compromise` NLP library is an external collaborator; it is
  modelled as an abstract `TextAnalyzer` interface (part-of-speech matching,
  sentence splitting), exactly the capabilities the source invokes.  Theorems
  quantify over analyzers; concrete evaluations use the reference analyzer
  `refAnalyzer` defined below.
* The JS `RegExp` builtin is an external collaborator, modelled at two
  levels.  `RegexEngine` abstracts it: whether `new RegExp(pat, 'gi')`
  compiles (it throws `SyntaxError` on invalid patterns such as `"c++"`,
  a quantifier with nothing to repeat) and how many matches its global scan
  finds; its laws pin down only the fragment ECMA-262 fixes syntactically —
  a pattern free of the regex syntax characters is a sequence of pattern
  characters, each matching itself, so it compiles and its global scan is
  the literal left-to-right non-overlapping scan `countOcc` (a zero-width
  match advances one position).  `scoreResumeJS` / `analyzeSuitabilityJS`
  are the engine-parameterized translations including the compile-failure
  throw; `scoreResume` / `analyzeSuitability` are their restrictions to the
  literal fragment (patterns treated as literals, no throw).
* The JS regex class in `content.split(...)` matching whitespace, comma and
  period is modelled over the ASCII whitespace characters; exotic Unicode
  space code points are outside the model.  Consecutive separators produce
  empty tokens here where JS collapses runs; empty tokens never match the
  technology dictionary, so the extracted skills agree.
-/

/-- A JavaScript string: its sequence of UTF-16 code units. -/
abbrev Str : Type := List Nat

/-- Code units of a Lean string literal (all literals used here are ASCII). -/
def strOf (s : String) : Str := s.data.map Char.toNat

/-- `String.prototype.toLowerCase` on one code unit (ASCII letters). -/
def lowerN (n : Nat) : Nat := if 65 ≤ n ∧ n ≤ 90 then n + 32 else n

/-- `String.prototype.toLowerCase`. -/
def lowerStr (s : Str) : Str := s.map lowerN

/-- Is the code unit matched by the `split` separator class `[\s,\.]`
(whitespace, comma, period; ASCII whitespace modelled)? -/
def isSepN (n : Nat) : Bool :=
  n == 32 || n == 9 || n == 10 || n == 13 || n == 11 || n == 12 || n == 44 || n == 46

/-- Split a string at separator code units (used for `content.split(/[\s,\.]+/)`;
see the header comment on empty tokens). -/
def splitOnPred (p : Nat → Bool) : Str → List Str
  | [] => [[]]
  | c :: rest =>
    match splitOnPred p rest with
    | [] => if p c then [[], []] else [[c]]
    | h :: t => if p c then [] :: h :: t else (c :: h) :: t

/-- `str.includes(pat)`: is `pat` a contiguous substring of `s`?
(`"".includes("")` is `true`, as in JS.) -/
def containsSub (pat : Str) : Str → Bool
  | [] => pat.isPrefixOf ([] : Str)
  | c :: rest => pat.isPrefixOf (c :: rest) || containsSub pat rest

/-- Fuel-driven worker for `countOcc` (each step either consumes a head or
ends at the empty string, so `s.length + 1` fuel always suffices; the fuel
makes the recursion structural and hence kernel-computable). -/
def countOccFuel (pat : Str) : Nat → Str → Nat
  | 0, _ => 0
  | _ + 1, [] => if pat.isPrefixOf ([] : Str) then 1 else 0
  | fuel + 1, c :: rest =>
    if pat.isPrefixOf (c :: rest) then
      1 + countOccFuel pat fuel ((c :: rest).drop (max pat.length 1))
    else
      countOccFuel pat fuel rest

/-- Number of matches of the literal pattern `pat` found by the JS global
regex scan over `s`: left-to-right, non-overlapping, a zero-width match
advances the scan position by one. -/
def countOcc (pat : Str) (s : Str) : Nat := countOccFuel pat (s.length + 1) s

/-- Is the code unit one of the ECMAScript regex syntax characters
`^ $ \ . * + ? ( ) [ ] { } |`?  A pattern containing none of these is a
sequence of pattern characters, each matching itself literally. -/
def isRegexMeta (n : Nat) : Bool :=
  n == 94 || n == 36 || n == 92 || n == 46 || n == 42 || n == 43 ||
    n == 63 || n == 40 || n == 41 || n == 91 || n == 93 || n == 123 ||
    n == 124 || n == 125

/-- Abstract interface for the JS `RegExp` builtin as `scoreResume` uses it:
`compileOk pat` is whether `new RegExp(pat, 'gi')` succeeds (it throws
`SyntaxError` otherwise), and `matchCount pat s` is
`s.match(new RegExp(pat, 'gi')).length` (0 for a `null` result).  The two
laws record the ECMA-262 behaviour on the syntactically fixed fragment:
a pattern free of regex syntax characters always compiles, and its global
scan is exactly the literal non-overlapping scan `countOcc`.  Behaviour on
patterns containing syntax characters is left to the concrete engine. -/
structure RegexEngine where
  compileOk : Str → Bool
  matchCount : Str → Str → Nat
  compileOk_literal : ∀ pat : Str,
    pat.all (fun n => !isRegexMeta n) = true → compileOk pat = true
  matchCount_literal : ∀ pat s : Str,
    pat.all (fun n => !isRegexMeta n) = true → matchCount pat s = countOcc pat s

/-- `Math.round`: round to the nearest integer, half toward positive
infinity. -/
def jsRound (q : ℚ) : ℤ := ⌊q + 1 / 2⌋

/-- The fixed technology-term dictionary `commonTechTerms` of the source. -/
def commonTechTerms : List Str :=
  [strOf "javascript", strOf "typescript", strOf "python", strOf "java",
   strOf "c++", strOf "ruby", strOf "php",
   strOf "react", strOf "angular", strOf "vue", strOf "node", strOf "express",
   strOf "django", strOf "flask",
   strOf "mongodb", strOf "postgresql", strOf "mysql", strOf "redis",
   strOf "aws", strOf "azure", strOf "gcp",
   strOf "docker", strOf "kubernetes", strOf "git", strOf "ci/cd",
   strOf "agile", strOf "scrum",
   strOf "html", strOf "css", strOf "sass", strOf "less", strOf "webpack",
   strOf "babel", strOf "rest", strOf "graphql",
   strOf "linux", strOf "windows", strOf "macos", strOf "ios",
   strOf "android", strOf "swift", strOf "kotlin"]

/-- The cue words of the noun-phrase pattern
`'(cloud|stack|framework|language|database|platform|system|api|service)'`. -/
def cueWords : List Str :=
  [strOf "cloud", strOf "stack", strOf "framework", strOf "language",
   strOf "database", strOf "platform", strOf "system", strOf "api",
   strOf "service"]

/-- The education keywords of the pattern
`'(degree|bachelor|master|phd|diploma)'`. -/
def eduWords : List Str :=
  [strOf "degree", strOf "bachelor", strOf "master", strOf "phd",
   strOf "diploma"]

/-- Abstract interface for the external `compromise` NLP library, exposing
exactly the capabilities the source invokes on a document built from the
(lower-cased) content. -/
structure TextAnalyzer where
  /-- Texts of `doc.match('#Noun').match(alternatives)` terms, in order. -/
  nounTermsAmong : Str → List Str → List Str
  /-- Texts of `doc.match('#ProperNoun').not('#Person').not('#Place').not('#Organization')`. -/
  otherProperNouns : Str → List Str
  /-- `doc.sentences()` texts, in document order. -/
  sentences : Str → List Str
  /-- Does the sentence match the pattern `'#Value years'`
  (a numeric value term immediately followed by the word "years")? -/
  matchValueYears : Str → Bool
  /-- Does the sentence match a given single-word pattern? -/
  matchWord : Str → Str → Bool
  /-- Does the sentence contain a `#Value` (numeric value) term at all? -/
  hasNumericValue : Str → Bool

/-- Extraction output (`parseResume` return shape). -/
structure Profile where
  skills : List Str
  experience : List Str
  education : List Str
deriving DecidableEq

/-- JS `Set.prototype.add` followed by `Array.from`: append if absent,
keeping first-insertion order. -/
def addSkill (acc : List Str) (x : Str) : List Str :=
  if x ∈ acc then acc else acc ++ [x]

/-- Translation of `ResumeParser.parseResume`. -/
def parseResume (A : TextAnalyzer) (content : Str) : Profile :=
  let lowered := lowerStr content
  -- const words = content.toLowerCase().split(/[\s,\.]+/); dictionary filter
  let fromDict := (splitOnPred isSepN lowered).filter
    (fun w => decide (w ∈ commonTechTerms))
  -- doc.match('#Noun').match('(cloud|stack|...)'); term.text().toLowerCase()
  let fromTech := (A.nounTermsAmong lowered cueWords).map lowerStr
  -- #ProperNoun not Person/Place/Organization, lower-cased, dictionary filter
  let fromProper := ((A.otherProperNouns lowered).map lowerStr).filter
    (fun t => decide (t ∈ commonTechTerms))
  let skills := ((fromDict ++ fromTech) ++ fromProper).foldl addSkill []
  let sents := A.sentences lowered
  -- doc.sentences().if('#Value years').if('experience')
  let experience := (sents.filter A.matchValueYears).filter
    (fun s => A.matchWord s (strOf "experience"))
  -- doc.sentences().if('(degree|bachelor|master|phd|diploma)')
  let education := sents.filter (fun s => eduWords.any (fun w => A.matchWord s w))
  { skills := skills, experience := experience, education := education }

/-- Outcome of `scoreResume` as a JS computation: an ordinary finite number,
the IEEE value `NaN`, an exception propagated to the caller (`thrown`: the
`SyntaxError` raised by `new RegExp` on an invalid pattern — the source
itself contains no `throw` statement), or the `ConfigurationError` signal
the specification postulates for the empty-`requiredSkills` case, which no
translation ever produces. -/
inductive ScoreOutcome where
  | num (q : ℚ)
  | nan
  | thrown
  | configError
deriving DecidableEq

/-- The per-skill match test of `scoreResume`:
`skills.includes(skill.toLowerCase()) || normalizedContent.includes(skill.toLowerCase())`. -/
def skillMatched (A : TextAnalyzer) (content : Str) (sk : Str) : Bool :=
  decide (lowerStr sk ∈ (parseResume A content).skills) ||
    containsSub (lowerStr sk) (lowerStr content)

/-- One iteration of the bonus `forEach` of `scoreResume`: +0.2 when the
skill occurs more than once (global regex count), +0.3 when
`"experience in " + skill` is a substring. -/
def bonusStep (normalizedContent : Str) (acc : ℚ) (sk : Str) : ℚ :=
  let acc₁ := if 1 < countOcc (lowerStr sk) normalizedContent
    then acc + 2 / 10 else acc
  if containsSub (strOf "experience in " ++ lowerStr sk) normalizedContent
    then acc₁ + 3 / 10 else acc₁

/-- Translation of `ResumeParser.scoreResume` restricted to the literal
fragment (every skill pattern treated as a literal, no compile failure);
`scoreResumeJS` below is the full engine-parameterized translation and
coincides with this one on metacharacter-free skills.  With empty
`requiredSkills` the source computes `(0 / 0) * 7`, and JS division
`0 / 0` yields `NaN`, which propagates through every later operation to
the returned value. -/
def scoreResume (A : TextAnalyzer) (content : Str) (requiredSkills : List Str) :
    ScoreOutcome :=
  if requiredSkills = [] then ScoreOutcome.nan
  else
    let matchedSkills := requiredSkills.filter (skillMatched A content)
    let base : ℚ := ((matchedSkills.length : ℚ) / (requiredSkills.length : ℚ)) * 7
    let total : ℚ := requiredSkills.foldl (bonusStep (lowerStr content)) base
    ScoreOutcome.num (min (((jsRound (total * 10) : ℤ) : ℚ) / 10) 10)

/-- One iteration of the bonus `forEach` with the regex engine abstracted:
+0.2 when the engine's global scan finds more than one match of the
lower-cased skill, +0.3 when `"experience in " + skill` is a substring. -/
def bonusStepJS (E : RegexEngine) (normalizedContent : Str) (acc : ℚ) (sk : Str) : ℚ :=
  let acc₁ := if 1 < E.matchCount (lowerStr sk) normalizedContent
    then acc + 2 / 10 else acc
  if containsSub (strOf "experience in " ++ lowerStr sk) normalizedContent
    then acc₁ + 3 / 10 else acc₁

/-- Full translation of `ResumeParser.scoreResume` over a regex engine.
The bonus `forEach` constructs `new RegExp(skill.toLowerCase(), 'gi')` for
every required skill, so it throws a `SyntaxError` at the first skill whose
pattern fails to compile; the exception discards the partial score, so the
compile check is hoisted before the fold.  With empty `requiredSkills` the
loop body never runs (no regex is constructed) and the `0 / 0` division
makes the result `NaN`. -/
def scoreResumeJS (E : RegexEngine) (A : TextAnalyzer) (content : Str)
    (requiredSkills : List Str) : ScoreOutcome :=
  if requiredSkills = [] then ScoreOutcome.nan
  else
    let matchedSkills := requiredSkills.filter (skillMatched A content)
    let base : ℚ := ((matchedSkills.length : ℚ) / (requiredSkills.length : ℚ)) * 7
    if requiredSkills.all (fun sk => E.compileOk (lowerStr sk)) then
      let total : ℚ := requiredSkills.foldl (bonusStepJS E (lowerStr content)) base
      ScoreOutcome.num (min (((jsRound (total * 10) : ℤ) : ℚ) / 10) 10)
    else ScoreOutcome.thrown

/-- Suitability verdict (`analyzeSuitability` return shape). -/
structure Verdict where
  strengths : List Str
  gaps : List Str
  recommendation : Str
deriving DecidableEq

/-- JS comparison `o >= t`: false when `o` is `NaN` (comparisons with `NaN`
are always false in JS).  The `thrown` and `configError` cases never reach
a comparison. -/
def scoreGE (o : ScoreOutcome) (t : ℚ) : Bool :=
  match o with
  | ScoreOutcome.num q => decide (t ≤ q)
  | _ => false

/-- Is the code unit an ASCII decimal digit? -/
def isDigitN (n : Nat) : Bool := 48 ≤ n && n ≤ 57

/-- First maximal run of decimal digits in a string (`s.match(/\d+/)?.[0]`). -/
def firstNumRun : Str → Option Str
  | [] => none
  | c :: rest =>
    if isDigitN c then some (c :: rest.takeWhile isDigitN) else firstNumRun rest

/-- Numeric value of a digit run. -/
def natOfDigits (ds : Str) : Nat := ds.foldl (fun a d => a * 10 + (d - 48)) 0

/-- `parseInt(exp.match(/\d+/)?.[0] || '0')`. -/
def firstNat (s : Str) : Nat :=
  match firstNumRun s with
  | none => 0
  | some ds => natOfDigits ds

/-- Fuel-driven worker for `natDigits` (fuel `n` always suffices). -/
def natDigitsFuel : Nat → Nat → Str
  | 0, n => [48 + n % 10]
  | fuel + 1, n => if n < 10 then [48 + n] else natDigitsFuel fuel (n / 10) ++ [48 + n % 10]

/-- Decimal rendering of a natural number (template-literal interpolation). -/
def natDigits (n : Nat) : Str := natDigitsFuel n n

/-- Verdict construction of `ResumeParser.analyzeSuitability` (everything
after the `parseResume` and `scoreResume` calls), shared between the
literal-fragment and the engine-parameterized translations. -/
def buildVerdict (p : Profile) (score : ScoreOutcome)
    (requiredSkills : List Str) : Verdict :=
  let matchedSkills := requiredSkills.filter
    (fun sk => decide (lowerStr sk ∈ p.skills))
  let missingSkills := requiredSkills.filter
    (fun sk => !decide (lowerStr sk ∈ p.skills))
  let skillStrengths := if 0 < matchedSkills.length then
      [strOf "Strong match in key skills: " ++
        List.intercalate (strOf ", ") matchedSkills]
    else []
  let skillGaps := if 0 < missingSkills.length then
      [strOf "Missing required skills: " ++
        List.intercalate (strOf ", ") missingSkills]
    else []
  let yearsExp := p.experience.foldl (fun m e => max m (firstNat e)) 0
  let expStrengths := if 5 ≤ yearsExp then
      [strOf "Strong industry experience with " ++ natDigits yearsExp ++
        strOf " years"]
    else if 2 ≤ yearsExp then
      [strOf "Relevant experience with " ++ natDigits yearsExp ++
        strOf " years in the field"]
    else []
  let expGaps := if 2 ≤ yearsExp then []
    else [strOf "Limited professional experience"]
  let eduStrengths := if 0 < p.education.length then
      if p.education.any (fun e => containsSub (strOf "master") (lowerStr e) ||
          containsSub (strOf "phd") (lowerStr e)) then
        [strOf "Advanced academic qualifications"]
      else if p.education.any
          (fun e => containsSub (strOf "bachelor") (lowerStr e)) then
        [strOf "Relevant academic background"]
      else []
    else []
  let eduGaps := if 0 < p.education.length then []
    else [strOf "No formal education details found"]
  let recommendation := if scoreGE score 7 then
      strOf "Highly recommended for the position. The candidate shows strong alignment with job requirements and brings valuable experience."
    else if scoreGE score 5 then
      strOf "Consider for interview. While there are some gaps, the candidate shows potential and could be a good fit with some training."
    else
      strOf "Not recommended for this position. The candidate\x27s profile doesn\x27t align well with the job requirements."
  { strengths := (skillStrengths ++ expStrengths) ++ eduStrengths,
    gaps := (skillGaps ++ expGaps) ++ eduGaps,
    recommendation := recommendation }

/-- Translation of `ResumeParser.analyzeSuitability` restricted to the
literal fragment (paired with `scoreResume`; see `analyzeSuitabilityJS` for
the full translation).  Note the `jobDescription` parameter is never read
by the body, as in the source. -/
def analyzeSuitability (A : TextAnalyzer) (content : Str)
    (requiredSkills : List Str) (jobDescription : Str) : Verdict :=
  buildVerdict (parseResume A content) (scoreResume A content requiredSkills)
    requiredSkills

/-- Full translation of `ResumeParser.analyzeSuitability` over a regex
engine: the body calls `scoreResume` before building the verdict, so a
`SyntaxError` raised there propagates to the caller (`none`); the
`jobDescription` parameter is never read, as in the source. -/
def analyzeSuitabilityJS (E : RegexEngine) (A : TextAnalyzer) (content : Str)
    (requiredSkills : List Str) (jobDescription : Str) : Option Verdict :=
  let score := scoreResumeJS E A content requiredSkills
  if score = ScoreOutcome.thrown then none
  else some (buildVerdict (parseResume A content) score requiredSkills)

/-- Is the code unit an ASCII letter or digit (reference analyzer tokens)? -/
def isAlphaNumN (n : Nat) : Bool :=
  (48 ≤ n && n ≤ 57) || (97 ≤ n && n ≤ 122) || (65 ≤ n && n ≤ 90)

/-- Word tokens of the reference analyzer: maximal alphanumeric runs. -/
def wordTokens (s : Str) : List Str :=
  (splitOnPred (fun n => !isAlphaNumN n) s).filter (fun t => !t.isEmpty)

/-- Is the token entirely made of decimal digits (reference `#Value`)? -/
def isNumericTok (t : Str) : Bool := !t.isEmpty && t.all isDigitN

/-- Does the token list contain a numeric token immediately followed by the
token "years" (reference reading of the pattern `'#Value years'`)? -/
def hasConsecValueYears : List Str → Bool
  | a :: b :: rest =>
    (isNumericTok a && b == strOf "years") || hasConsecValueYears (b :: rest)
  | _ => false

/-- Sentences of the reference analyzer: split at `.`, `!`, `?`, dropping
empty pieces. -/
def simpleSentences (s : Str) : List Str :=
  (splitOnPred (fun n => n == 46 || n == 33 || n == 63) s).filter
    (fun t => !t.isEmpty)

/-- A concrete rule-based `TextAnalyzer` used to evaluate the model on
concrete inputs (one legitimate implementation of the interface). -/
def refAnalyzer : TextAnalyzer where
  nounTermsAmong := fun s ws => (wordTokens s).filter (fun t => decide (t ∈ ws))
  otherProperNouns := fun s => (wordTokens s).filter
    (fun t => match t with
      | c :: _ => 65 ≤ c && c ≤ 90
      | [] => false)
  sentences := simpleSentences
  matchValueYears := fun s => hasConsecValueYears (wordTokens s)
  matchWord := fun s w => decide (w ∈ wordTokens s)
  hasNumericValue := fun s => (wordTokens s).any isNumericTok

/-- A concrete `RegexEngine` implementing the literal fragment: it compiles
exactly the metacharacter-free patterns and scans them literally.  On the
concrete patterns the theorems below evaluate it at, its verdicts agree
with the JS engine: metacharacter-free patterns compile and match
literally in JS, and `new RegExp("c++", 'gi')` throws a `SyntaxError`
(the second `+` is a quantifier with nothing to repeat). -/
def refRegex : RegexEngine where
  compileOk := fun pat => pat.all (fun n => !isRegexMeta n)
  matchCount := countOcc
  compileOk_literal := fun _ h => h
  matchCount_literal := fun _ _ _ => rfl

/-- Number of (possibly overlapping) occurrence positions of `pat` as a
substring of `s` — the reading of "occurs more than once" used by the
specification sentence of claim C3. -/
def overlapOccurrences (pat s : Str) : Nat :=
  ((List.range (s.length + 1)).filter (fun i => pat.isPrefixOf (s.drop i))).length

/-- Score formula exactly as the specification sentence of claim C3 words it
(repetition bonus per skill whose literal form occurs more than once, i.e.
has more than one occurrence position). -/
def scoreSpecC3 (A : TextAnalyzer) (content : Str) (req : List Str) : ℚ :=
  let lc := lowerStr content
  let matched := req.countP (skillMatched A content)
  let rep := req.countP (fun sk => decide (1 < overlapOccurrences (lowerStr sk) lc))
  let expB := req.countP (fun sk => containsSub (strOf "experience in " ++ lowerStr sk) lc)
  min (((jsRound ((((matched : ℚ) / (req.length : ℚ)) * 7 +
    (2 / 10) * (rep : ℚ) + (3 / 10) * (expB : ℚ)) * 10) : ℤ) : ℚ) / 10) 10

/-- Closed-form score: as `scoreSpecC3` but with the repetition bonus counted
by the global regex scan (non-overlapping), as the source does. -/
def scoreFormula (A : TextAnalyzer) (content : Str) (req : List Str) : ℚ :=
  let lc := lowerStr content
  let matched := req.countP (skillMatched A content)
  let rep := req.countP (fun sk => decide (1 < countOcc (lowerStr sk) lc))
  let expB := req.countP (fun sk => containsSub (strOf "experience in " ++ lowerStr sk) lc)
  min (((jsRound ((((matched : ℚ) / (req.length : ℚ)) * 7 +
    (2 / 10) * (rep : ℚ) + (3 / 10) * (expB : ℚ)) * 10) : ℤ) : ℚ) / 10) 10

/-- Experience extraction exactly as the specification sentence of claim C6
words it: sentences containing a numeric value token and the word
"experience". -/
def expSpecC6 (A : TextAnalyzer) (content : Str) : List Str :=
  (A.sentences (lowerStr content)).filter
    (fun s => A.hasNumericValue s && A.matchWord s (strOf "experience"))

theorem lowerN_idem (n : Nat) : lowerN (lowerN n) = lowerN n := by
  unfold lowerN
  split_ifs <;> omega

theorem lowerStr_idem (s : Str) : lowerStr (lowerStr s) = lowerStr s := by
  induction s with
  | nil => rfl
  | cons c rest ih => simp only [lowerStr, List.map_cons] at ih ⊢
                      rw [lowerN_idem]
                      exact congrArg _ ih

theorem mem_dict_lower : ∀ w ∈ commonTechTerms, lowerStr w = w := by decide

theorem foldl_bonusStep_eq (n : Str) (l : List Str) (a : ℚ) :
    l.foldl (bonusStep n) a =
      a + (2 / 10) * (l.countP (fun sk => decide (1 < countOcc (lowerStr sk) n)) : ℚ)
        + (3 / 10) * (l.countP (fun sk => containsSub (strOf "experience in " ++ lowerStr sk) n) : ℚ) := by
  induction l generalizing a with
  | nil => simp
  | cons x xs ih =>
    simp only [List.foldl_cons, List.countP_cons, ih]
    unfold bonusStep
    simp only [decide_eq_true_eq]
    split_ifs <;> push_cast <;> ring

theorem scoreResume_eq_formula (A : TextAnalyzer) (c : Str) (req : List Str)
    (h : req ≠ []) :
    scoreResume A c req = ScoreOutcome.num (scoreFormula A c req) := by
  unfold scoreResume scoreFormula
  rw [if_neg h]
  simp only [ScoreOutcome.num.injEq]
  rw [foldl_bonusStep_eq]
  congr 4
  simp only [List.countP_eq_length_filter]

theorem foldl_bonusStepJS_literal (E : RegexEngine) (n : Str) (l : List Str)
    (hl : ∀ sk ∈ l, (lowerStr sk).all (fun m => !isRegexMeta m) = true) :
    ∀ a : ℚ, l.foldl (bonusStepJS E n) a = l.foldl (bonusStep n) a := by
  induction l with
  | nil => intro a; rfl
  | cons x xs ih =>
    intro a
    simp only [List.foldl_cons]
    rw [show bonusStepJS E n a x = bonusStep n a x from by
      unfold bonusStepJS bonusStep
      rw [E.matchCount_literal _ _ (hl x (List.mem_cons_self x xs))]]
    exact ih (fun sk hsk => hl sk (List.mem_cons_of_mem _ hsk)) _

theorem scoreResumeJS_eq_literal (E : RegexEngine) (A : TextAnalyzer)
    (c : Str) (req : List Str)
    (hlit : ∀ sk ∈ req, (lowerStr sk).all (fun m => !isRegexMeta m) = true) :
    scoreResumeJS E A c req = scoreResume A c req := by
  by_cases h : req = []
  · subst h
    rfl
  · have hc : req.all (fun sk => E.compileOk (lowerStr sk)) = true := by
      rw [List.all_eq_true]
      intro sk hsk
      exact E.compileOk_literal _ (hlit sk hsk)
    simp only [scoreResumeJS, scoreResume, if_neg h, hc, if_true]
    rw [foldl_bonusStepJS_literal E (lowerStr c) req hlit]

theorem foldl_addSkill_nodup (l : List Str) (acc : List Str) (h : acc.Nodup) :
    (l.foldl addSkill acc).Nodup := by
  induction l generalizing acc with
  | nil => exact h
  | cons x xs ih =>
    simp only [List.foldl_cons]
    apply ih
    unfold addSkill
    split_ifs with hx
    · exact h
    · simp [List.nodup_append, h, hx]

theorem mem_foldl_addSkill (l : List Str) (acc : List Str) (x : Str)
    (h : x ∈ l.foldl addSkill acc) : x ∈ acc ∨ x ∈ l := by
  induction l generalizing acc with
  | nil => exact Or.inl h
  | cons y ys ih =>
    simp only [List.foldl_cons] at h
    rcases ih _ h with h' | h'
    · unfold addSkill at h'
      split_ifs at h' with hy
      · exact Or.inl h'
      · rcases List.mem_append.mp h' with h'' | h''
        · exact Or.inl h''
        · simp only [List.mem_singleton] at h''
          exact Or.inr (by simp [h''])
    · exact Or.inr (List.mem_cons_of_mem _ h')

theorem jsRound_eq_of (q : ℚ) (z : ℤ) (h1 : (z : ℚ) ≤ q + 1 / 2)
    (h2 : q + 1 / 2 < z + 1) : jsRound q = z := by
  unfold jsRound
  exact Int.floor_eq_iff.mpr ⟨h1, h2⟩

theorem jsRound_nonneg (q : ℚ) (h : 0 ≤ q) : 0 ≤ jsRound q := by
  unfold jsRound
  rw [← Int.floor_zero (α := ℚ)]
  exact Int.floor_le_floor (by linarith)

theorem jsRound_mono (a b : ℚ) (h : a ≤ b) : jsRound a ≤ jsRound b := by
  unfold jsRound
  exact Int.floor_le_floor (by linarith)

theorem scoreResume_eval (A : TextAnalyzer) (c : Str) (req : List Str)
    (m n r e : ℕ) (z : ℤ) (v : ℚ) (hne : req ≠ [])
    (hm : req.countP (skillMatched A c) = m)
    (hn : req.length = n)
    (hr : req.countP (fun sk => decide (1 < countOcc (lowerStr sk) (lowerStr c))) = r)
    (he : req.countP (fun sk => containsSub (strOf "experience in " ++ lowerStr sk) (lowerStr c)) = e)
    (hz : jsRound ((((m : ℚ) / (n : ℚ)) * 7 + (2 / 10) * (r : ℚ) + (3 / 10) * (e : ℚ)) * 10) = z)
    (hv : min (((z : ℤ) : ℚ) / 10) 10 = v) :
    scoreResume A c req = ScoreOutcome.num v := by
  rw [scoreResume_eq_formula A c req hne]
  simp only [scoreFormula]
  rw [hm, hn, hr, he, hz, hv]

theorem min_div_ten (z : ℤ) :
    min ((z : ℚ) / 10) 10 = ((min z 100 : ℤ) : ℚ) / 10 := by
  rcases le_total z 100 with h | h
  · rw [min_eq_left h, min_eq_left]
    rw [div_le_iff (by norm_num : (0 : ℚ) < 10)]
    calc (z : ℚ) ≤ 100 := by exact_mod_cast h
    _ = 10 * 10 := by norm_num
  · rw [min_eq_right h, min_eq_right]
    · norm_num
    · rw [le_div_iff (by norm_num : (0 : ℚ) < 10)]
      calc (10 : ℚ) * 10 = 100 := by norm_num
      _ ≤ (z : ℚ) := by exact_mod_cast h

theorem exists_tenths (q : ℚ) (hq : 0 ≤ q) :
    ∃ k : ℤ, min (((jsRound q : ℤ) : ℚ) / 10) 10 = (k : ℚ) / 10 ∧
      0 ≤ k ∧ k ≤ 100 :=
  ⟨min (jsRound q) 100, min_div_ten _,
    le_min (jsRound_nonneg q hq) (by norm_num), min_le_right _ _⟩

/-- Claim C1 (amended): calling `scoreResume` with an empty `requiredSkills`
sequence returns the IEEE value NaN (from the `0 / 0` match-ratio division);
no error is signalled. -/
theorem score_empty_returns_nan (A : TextAnalyzer) (content : Str) :
    scoreResume A content [] = ScoreOutcome.nan := by
  simp [scoreResume]

/-- Claim C1 counterexample: at the concrete content "java developer" with
empty `requiredSkills`, `scoreResume` returns NaN — it does not signal the
`ConfigurationError` the claim asserts. -/
theorem score_empty_counterexample :
    scoreResume refAnalyzer (strOf "java developer") [] = ScoreOutcome.nan ∧
      scoreResume refAnalyzer (strOf "java developer") [] ≠ ScoreOutcome.configError := by
  decide

/-- Claim C4 counterexample: with the required skill "c++" — whose pattern
fails to compile, since `new RegExp("c++", 'gi')` is a `SyntaxError` — the
scoring engine raises, and the suitability analyzer propagates the error;
so an error surfaces outside the empty-`requiredSkills` case, refuting the
claimed propagation policy. -/
theorem score_error_counterexample :
    scoreResumeJS refRegex refAnalyzer (strOf "java") [strOf "c++"] =
      ScoreOutcome.thrown ∧
    analyzeSuitabilityJS refRegex refAnalyzer (strOf "java") [strOf "c++"]
      (strOf "") = none ∧
    ([strOf "c++"] : List Str) ≠ [] := by
  decide

/-- Claim C4 (amended): extraction never raises (it is a total function into
plain data, mirroring the absence of any throw site in `parseResume`); the
scoring engine raises exactly when some required skill's lower-cased form
fails to compile as a regular expression (`SyntaxError` from `new RegExp`),
and the suitability analyzer propagates exactly that error; apart from
this, no error surfaces — in particular the empty-`requiredSkills` case
does not raise but evaluates to NaN. -/
theorem score_error_cases (E : RegexEngine) (A : TextAnalyzer) (c : Str)
    (req : List Str) (jd : Str) :
    ((req = [] ∧ scoreResumeJS E A c req = ScoreOutcome.nan) ∨
      (req ≠ [] ∧ req.all (fun sk => E.compileOk (lowerStr sk)) = true ∧
        ∃ q, scoreResumeJS E A c req = ScoreOutcome.num q) ∨
      (req ≠ [] ∧ req.all (fun sk => E.compileOk (lowerStr sk)) = false ∧
        scoreResumeJS E A c req = ScoreOutcome.thrown)) ∧
    (analyzeSuitabilityJS E A c req jd = none ↔
      scoreResumeJS E A c req = ScoreOutcome.thrown) := by
  constructor
  · by_cases h : req = []
    · subst h
      exact Or.inl ⟨rfl, rfl⟩
    · by_cases hc : req.all (fun sk => E.compileOk (lowerStr sk)) = true
      · refine Or.inr (Or.inl ⟨h, hc, ?_⟩)
        simp only [scoreResumeJS, if_neg h, hc, if_true]
        exact ⟨_, rfl⟩
      · refine Or.inr (Or.inr ⟨h, by simpa using hc, ?_⟩)
        simp only [scoreResumeJS, if_neg h]
        rw [if_neg]
        simpa using hc
  · simp only [analyzeSuitabilityJS]
    split_ifs with hs
    · simp [hs]
    · simp [hs]

/-- Claim C5: extraction and scoring are deterministic pure functions — two
calls with identical inputs produce identical outputs. -/
theorem extraction_scoring_deterministic (A : TextAnalyzer) (c c' : Str)
    (req req' : List Str) (hc : c = c') (hr : req = req') :
    parseResume A c = parseResume A c' ∧
      scoreResume A c req = scoreResume A c' req' := by
  subst hc
  subst hr
  exact ⟨rfl, rfl⟩

theorem extraction_scoring_deterministic_witness :
    parseResume refAnalyzer (strOf "java") = parseResume refAnalyzer (strOf "java") ∧
      scoreResume refAnalyzer (strOf "java") [strOf "java"] =
        scoreResume refAnalyzer (strOf "java") [strOf "java"] :=
  extraction_scoring_deterministic refAnalyzer (strOf "java") (strOf "java")
    [strOf "java"] [strOf "java"] rfl rfl

/-- Claim C10: the verdict of `analyzeSuitability` does not depend on the
`jobDescription` argument. -/
theorem analyze_ignores_description (A : TextAnalyzer) (c : Str)
    (req : List Str) (jd₁ jd₂ : Str) :
    analyzeSuitability A c req jd₁ = analyzeSuitability A c req jd₂ := rfl

/-- Claim C6 counterexample: on the content "8 experience" (one sentence
containing a numeric token and the word "experience" but no "years"), the
code's experience list is empty while the claim's filter keeps the
sentence. -/
theorem experience_filter_counterexample :
    (parseResume refAnalyzer (strOf "8 experience")).experience ≠
      expSpecC6 refAnalyzer (strOf "8 experience") ∧
    (parseResume refAnalyzer (strOf "8 experience")).experience = [] ∧
    expSpecC6 refAnalyzer (strOf "8 experience") = [strOf "8 experience"] := by
  decide

/-- Claim C6 (amended): the experience mentions are exactly the sentences
matching the pattern "numeric value followed by the word years" and
containing the word "experience", in document order. -/
theorem experience_filter_amended (A : TextAnalyzer) (content : Str) :
    (parseResume A content).experience =
      (A.sentences (lowerStr content)).filter
        (fun s => A.matchValueYears s && A.matchWord s (strOf "experience")) := by
  simp only [parseResume]
  rw [List.filter_filter]
  apply List.filter_congr
  intro x _
  exact Bool.and_comm _ _

/-- Claim C7: `parseResume` is total, and on the empty string (with any
analyzer reporting no terms and no sentences for the empty document) it
returns the empty profile. -/
theorem parse_empty_profile (A : TextAnalyzer)
    (hs : A.sentences [] = []) (ht : A.nounTermsAmong [] cueWords = [])
    (hp : A.otherProperNouns [] = []) :
    parseResume A [] = { skills := [], experience := [], education := [] } := by
  simp only [parseResume]
  rw [show lowerStr [] = ([] : Str) from rfl, hs, ht, hp]
  simp only [List.filter_nil, List.map_nil]
  decide

theorem parse_empty_profile_witness :
    parseResume refAnalyzer [] = { skills := [], experience := [], education := [] } :=
  parse_empty_profile refAnalyzer (by decide) (by decide) (by decide)

/-- Claim C8: the skill list of every extracted profile is deduplicated and
every element is its own lower-casing. -/
theorem skills_lower_nodup (A : TextAnalyzer) (content : Str) :
    (parseResume A content).skills.Nodup ∧
      ∀ x ∈ (parseResume A content).skills, lowerStr x = x := by
  constructor
  · simp only [parseResume]
    exact foldl_addSkill_nodup _ _ List.nodup_nil
  · intro x hx
    simp only [parseResume] at hx
    rcases mem_foldl_addSkill _ _ _ hx with h | h
    · exact absurd h (List.not_mem_nil x)
    · rcases List.mem_append.mp h with h' | h'
      · rcases List.mem_append.mp h' with h'' | h''
        · have hf := List.mem_filter.mp h''
          exact mem_dict_lower x (by simpa using hf.2)
        · rcases List.mem_map.mp h'' with ⟨y, _, rfl⟩
          exact lowerStr_idem y
      · have hf := List.mem_filter.mp h'
        exact mem_dict_lower x (by simpa using hf.2)

/-- Claim C2: for every content and non-empty `requiredSkills`, the score is
an integer multiple of one tenth lying in the closed interval from 0 to 10
(witnessed by an integer k with score = k/10 and 0 <= k <= 100). -/
theorem score_bounded_tenths (A : TextAnalyzer) (content : Str)
    (req : List Str) (h : req ≠ []) :
    ∃ k : ℤ, scoreResume A content req = ScoreOutcome.num ((k : ℚ) / 10) ∧
      0 ≤ k ∧ k ≤ 100 := by
  rw [scoreResume_eq_formula A content req h]
  simp only [scoreFormula, ScoreOutcome.num.injEq]
  apply exists_tenths
  positivity

theorem score_bounded_tenths_witness :
    ∃ k : ℤ, scoreResume refAnalyzer (strOf "") [strOf "java"] =
      ScoreOutcome.num ((k : ℚ) / 10) ∧ 0 ≤ k ∧ k ≤ 100 :=
  score_bounded_tenths refAnalyzer (strOf "") [strOf "java"] (by decide)

/-- Claim C3 (amended): for non-empty `requiredSkills` all of whose
lower-cased skills are free of regex metacharacters — the domain on which
`new RegExp(skill, 'gi')` compiles and denotes the literal string —
`scoreResume` returns exactly the closed-form `scoreFormula`:
min(round(sum times 10)/10, 10) where sum = (matched/|req|)*7 + 0.2 per
skill found more than once by the global regex scan (non-overlapping
occurrences) + 0.3 per skill with "experience in skill" present. -/
theorem score_closed_form_literal (E : RegexEngine) (A : TextAnalyzer)
    (c : Str) (req : List Str) (h : req ≠ [])
    (hlit : ∀ sk ∈ req, (lowerStr sk).all (fun m => !isRegexMeta m) = true) :
    scoreResumeJS E A c req = ScoreOutcome.num (scoreFormula A c req) := by
  rw [scoreResumeJS_eq_literal E A c req hlit]
  exact scoreResume_eq_formula A c req h

theorem score_closed_form_literal_witness :
    scoreResumeJS refRegex refAnalyzer (strOf "aaa") [strOf "aa"] =
      ScoreOutcome.num (scoreFormula refAnalyzer (strOf "aaa") [strOf "aa"]) :=
  score_closed_form_literal refRegex refAnalyzer (strOf "aaa") [strOf "aa"]
    (by decide) (by decide)

/-- Claim C3 counterexample: on content "aaa" with required skill "aa"
(a metacharacter-free pattern, so the regex behaves literally), the code
returns 7.0 — the global regex scan finds only one non-overlapping
occurrence of "aa", so no repetition bonus — while the claim's formula,
counting occurrence positions, of which there are two, yields 7.2. -/
theorem score_formula_counterexample :
    scoreResumeJS refRegex refAnalyzer (strOf "aaa") [strOf "aa"] ≠
      ScoreOutcome.num (scoreSpecC3 refAnalyzer (strOf "aaa") [strOf "aa"]) ∧
    scoreResumeJS refRegex refAnalyzer (strOf "aaa") [strOf "aa"] =
      ScoreOutcome.num 7 ∧
    scoreSpecC3 refAnalyzer (strOf "aaa") [strOf "aa"] = 36 / 5 := by
  have h1 : scoreResumeJS refRegex refAnalyzer (strOf "aaa") [strOf "aa"] =
      ScoreOutcome.num 7 := by
    rw [scoreResumeJS_eq_literal refRegex refAnalyzer (strOf "aaa")
      [strOf "aa"] (by decide)]
    apply scoreResume_eval refAnalyzer (strOf "aaa") [strOf "aa"] 1 1 0 0 70 7
    · decide
    · decide
    · decide
    · decide
    · decide
    · apply jsRound_eq_of <;> norm_num
    · norm_num [min_def]
  have h2 : scoreSpecC3 refAnalyzer (strOf "aaa") [strOf "aa"] = 36 / 5 := by
    simp only [scoreSpecC3]
    rw [show List.countP (skillMatched refAnalyzer (strOf "aaa")) [strOf "aa"] = 1 from by decide]
    rw [show List.countP (fun sk => decide (1 < overlapOccurrences (lowerStr sk) (lowerStr (strOf "aaa")))) [strOf "aa"] = 1 from by decide]
    rw [show List.countP (fun sk => containsSub (strOf "experience in " ++ lowerStr sk) (lowerStr (strOf "aaa"))) [strOf "aa"] = 0 from by decide]
    rw [show ([strOf "aa"] : List Str).length = 1 from by decide]
    rw [show jsRound ((((1 : ℕ) : ℚ) / ((1 : ℕ) : ℚ) * 7 + (2 / 10) * ((1 : ℕ) : ℚ) + (3 / 10) * ((0 : ℕ) : ℚ)) * 10) = 72 from by apply jsRound_eq_of <;> norm_num]
    norm_num [min_def]
  refine ⟨?_, h1, h2⟩
  rw [h1, h2]
  simp only [ne_eq, ScoreOutcome.num.injEq]
  norm_num

theorem intCast_div_ten_mono (a b : ℤ) (h : a ≤ b) :
    (a : ℚ) / 10 ≤ (b : ℚ) / 10 :=
  (div_le_div_right (by norm_num : (0 : ℚ) < 10)).mpr (by exact_mod_cast h)

/-- Claim C9: holding the content, the `requiredSkills` length and the total
bonus fixed, the score is non-decreasing in the number of required skills
matched. -/
theorem score_mono_matched (A : TextAnalyzer) (c : Str) (req₁ req₂ : List Str)
    (hlen : req₁.length = req₂.length) (hne : req₁ ≠ [])
    (hbonus : req₁.foldl (bonusStep (lowerStr c)) 0 =
      req₂.foldl (bonusStep (lowerStr c)) 0)
    (hm : (req₁.filter (skillMatched A c)).length ≤
      (req₂.filter (skillMatched A c)).length)
    (q₁ q₂ : ℚ) (h₁ : scoreResume A c req₁ = ScoreOutcome.num q₁)
    (h₂ : scoreResume A c req₂ = ScoreOutcome.num q₂) :
    q₁ ≤ q₂ := by
  have hne₂ : req₂ ≠ [] := by
    intro he
    rw [he] at hlen
    exact hne (List.length_eq_zero.mp hlen)
  rw [scoreResume_eq_formula A c req₁ hne] at h₁
  rw [scoreResume_eq_formula A c req₂ hne₂] at h₂
  simp only [ScoreOutcome.num.injEq] at h₁ h₂
  subst h₁
  subst h₂
  rw [foldl_bonusStep_eq, foldl_bonusStep_eq] at hbonus
  simp only [zero_add, List.countP_eq_length_filter] at hbonus
  simp only [scoreFormula, List.countP_eq_length_filter]
  rw [hlen]
  apply min_le_min _ le_rfl
  apply intCast_div_ten_mono
  apply jsRound_mono
  have hn : (0 : ℚ) < ((req₂.length : ℕ) : ℚ) := by
    have := List.length_pos.mpr hne₂
    exact_mod_cast this
  have hm' : (((req₁.filter (skillMatched A c)).length : ℕ) : ℚ) ≤
      (((req₂.filter (skillMatched A c)).length : ℕ) : ℚ) := by exact_mod_cast hm
  have hdiv := (div_le_div_right hn).mpr hm'
  linarith [hdiv, hbonus]

theorem score_mono_matched_witness :
    scoreResume refAnalyzer (strOf "java") [strOf "zzz"] = ScoreOutcome.num 0 ∧
      scoreResume refAnalyzer (strOf "java") [strOf "java"] = ScoreOutcome.num 7 ∧
      (0 : ℚ) ≤ 7 := by
  have h₁ : scoreResume refAnalyzer (strOf "java") [strOf "zzz"] = ScoreOutcome.num 0 := by
    apply scoreResume_eval refAnalyzer (strOf "java") [strOf "zzz"] 0 1 0 0 0 0
    · decide
    · decide
    · decide
    · decide
    · decide
    · apply jsRound_eq_of <;> norm_num
    · norm_num [min_def]
  have h₂ : scoreResume refAnalyzer (strOf "java") [strOf "java"] = ScoreOutcome.num 7 := by
    apply scoreResume_eval refAnalyzer (strOf "java") [strOf "java"] 1 1 0 0 70 7
    · decide
    · decide
    · decide
    · decide
    · decide
    · apply jsRound_eq_of <;> norm_num
    · norm_num [min_def]
  exact ⟨h₁, h₂,
    score_mono_matched refAnalyzer (strOf "java") [strOf "zzz"] [strOf "java"]
      (by decide) (by decide) (by decide) (by decide) 0 7 h₁ h₂⟩

theorem score_empty_returns_nan_witness :
    scoreResume refAnalyzer (strOf "react") [] = ScoreOutcome.nan :=
  score_empty_returns_nan refAnalyzer (strOf "react")

theorem score_error_cases_witness :
    ((([strOf "c++"] : List Str) = [] ∧
        scoreResumeJS refRegex refAnalyzer (strOf "java") [strOf "c++"] =
          ScoreOutcome.nan) ∨
      (([strOf "c++"] : List Str) ≠ [] ∧
        ([strOf "c++"] : List Str).all
          (fun sk => refRegex.compileOk (lowerStr sk)) = true ∧
        ∃ q, scoreResumeJS refRegex refAnalyzer (strOf "java") [strOf "c++"] =
          ScoreOutcome.num q) ∨
      (([strOf "c++"] : List Str) ≠ [] ∧
        ([strOf "c++"] : List Str).all
          (fun sk => refRegex.compileOk (lowerStr sk)) = false ∧
        scoreResumeJS refRegex refAnalyzer (strOf "java") [strOf "c++"] =
          ScoreOutcome.thrown)) ∧
    (analyzeSuitabilityJS refRegex refAnalyzer (strOf "java") [strOf "c++"]
        (strOf "") = none ↔
      scoreResumeJS refRegex refAnalyzer (strOf "java") [strOf "c++"] =
        ScoreOutcome.thrown) :=
  score_error_cases refRegex refAnalyzer (strOf "java") [strOf "c++"] (strOf "")

theorem experience_filter_amended_witness :
    (parseResume refAnalyzer (strOf "5 years experience in java")).experience =
      (refAnalyzer.sentences (lowerStr (strOf "5 years experience in java"))).filter
        (fun s => refAnalyzer.matchValueYears s &&
          refAnalyzer.matchWord s (strOf "experience")) :=
  experience_filter_amended refAnalyzer (strOf "5 years experience in java")

theorem skills_lower_nodup_witness :
    (parseResume refAnalyzer (strOf "Java and Docker")).skills.Nodup ∧
      ∀ x ∈ (parseResume refAnalyzer (strOf "Java and Docker")).skills,
        lowerStr x = x :=
  skills_lower_nodup refAnalyzer (strOf "Java and Docker")

theorem analyze_ignores_description_witness :
    analyzeSuitability refAnalyzer (strOf "java") [strOf "java"] (strOf "a") =
      analyzeSuitability refAnalyzer (strOf "java") [strOf "java"] (strOf "b") :=
  analyze_ignores_description refAnalyzer (strOf "java") [strOf "java"]
    (strOf "a") (strOf "b")
